import Mathlib

/-!
Verification of the homebridge-soma-shades plugin against its design
specification.

The development shallowly embeds the plugin's core logic:

* `ShadesAccessory` — the per-accessory state (`shadesState`, `batteryState`,
  `lastMovementDone`, `firstPoll` from `platformAccessory.ts`), the
  `setTargetPosition` command handler, the body of one iteration of the
  `poll` loop, and the `doneMoving` tolerance-band test.
* `SOMADevice` — the BLE session state (`connected`, `initialized`, the
  characteristic cache), the disconnect handler, the service/characteristic
  discovery validation of `getCharacteristics`, and the dispatch order of
  `initialize`.
* `SOMAShadesPlatform` — the scan-cycle discovery callback
  `discoverPeripharels` with its address dedup list.

JavaScript numbers that the plugin uses as positions are embedded as `Int`
(all arithmetic performed on them is integer arithmetic); single bytes
written to GATT characteristics are `Int` values reduced modulo 256 where
`Buffer.from` truncates.  Fallible device operations are embedded as
`Except String` values, and `.catch(...)` recovery as `recover`.
-/

namespace ShadesAccessory

/-- `LOW_BATTERY_LEVEL` from `platformAccessory.ts`: battery level below 10%
is considered low battery. -/
def LOW_BATTERY_LEVEL : Int := 10

/-- The `POSITION_STATE` enum of `platformAccessory.ts` (a replica of
HAP.PositionState). -/
inductive POSITION_STATE where
  | DECREASING
  | INCREASING
  | STOPPED
deriving DecidableEq

/-- The `CHARGING_STATE` enum of `platformAccessory.ts`. -/
inductive CHARGING_STATE where
  | NOT_CHARGING
  | CHARGING
  | NOT_CHARGEABLE
deriving DecidableEq

/-- The `LOW_BATTERY` enum of `platformAccessory.ts`. -/
inductive LOW_BATTERY where
  | NORMAL
  | LOW
deriving DecidableEq

/-- `ShadesAccessory.doneMoving` (`platformAccessory.ts` lines 264-268):
the tolerance-band test deciding whether a movement has completed.
`lb` is `targetPosition - threshold` clamped below at 0, `hb` is
`targetPosition + threshold` clamped above at 100. -/
def doneMoving (currentPosition targetPosition threshold : Int) : Bool :=
  let lb := if targetPosition - threshold ≥ 0 then targetPosition - threshold else 0
  let hb := if targetPosition + threshold ≤ 100 then targetPosition + threshold else 100
  decide (currentPosition ≥ lb) && decide (currentPosition ≤ hb)

/-- The accessory's mutable fields from `platformAccessory.ts`: the
`shadesState` record (`positionState`, `currentPosition`, `targetPosition`),
the `batteryState` record (`level`, `charging`, `low_battery`), and the two
flags `lastMovementDone` (lines 62-63) and `firstPoll` (lines 65-67). -/
structure State where
  positionState : POSITION_STATE
  currentPosition : Int
  targetPosition : Int
  batteryLevel : Int
  charging : CHARGING_STATE
  low_battery : LOW_BATTERY
  lastMovementDone : Bool
  firstPoll : Bool
deriving DecidableEq

/-- The field initializers of `ShadesAccessory`: position state `STOPPED`,
positions 0, battery level 100, `lastMovementDone = true`,
`firstPoll = true`. -/
def initialState : State :=
  { positionState := .STOPPED
    currentPosition := 0
    targetPosition := 0
    batteryLevel := 100
    charging := .NOT_CHARGEABLE
    low_battery := .NORMAL
    lastMovementDone := true
    firstPoll := true }

/-- A read or write the accessory issues against the `SOMADevice` during
`setTargetPosition`: the `getTargetPosition` read, or the
`setTargetPosition(100 - v)` write carrying the device-convention value. -/
inductive DevAction where
  | readTarget
  | writeTarget (value : Int)
deriving DecidableEq

/-- The outcome `setTargetPosition` reports through its HomeKit callback:
`callback(null)` or `callback(new Error(...))`. -/
inductive CallbackResult where
  | success
  | failure (msg : String)
deriving DecidableEq

/-- `ShadesAccessory.setTargetPosition` (`platformAccessory.ts` lines
151-192) as a function of the accessory state, the requested `value`, and
the result of the `somaDevice.getTargetPosition()` read performed in the
body.  It returns the new accessory state, the list of device operations
issued, and the callback outcome.  The guards: a request equal to
`currentPosition` and a request while `lastMovementDone` is false are both
answered `callback(null)` without touching the device; otherwise
`targetPosition` and `positionState` are updated, the device target is
read, and the inverted value `100 - value` is written only when it differs
from the value read back. -/
def setTargetPosition (s : State) (value : Int) (devTarget : Except String Int) :
    State × List DevAction × CallbackResult :=
  if value = s.currentPosition then
    (s, [], .success)
  else if s.lastMovementDone = false then
    (s, [], .success)
  else
    let moveUp := decide (value > s.currentPosition)
    let s1 := { s with
      targetPosition := value
      positionState := if moveUp then .INCREASING else .DECREASING }
    match devTarget with
    | .error e => (s1, [.readTarget], .failure e)
    | .ok targetPosition =>
      if targetPosition ≠ 100 - s1.targetPosition then
        (s1, [.readTarget, .writeTarget (100 - s1.targetPosition)], .success)
      else
        (s1, [.readTarget], .success)

/-- The `.catch((error) => ...default...)` pattern applied to every device
operation awaited inside the `poll` loop: an error is replaced by the
default value supplied in the catch handler. -/
def recover {α : Type} (r : Except String α) (d : α) : α :=
  match r with
  | .ok a => a
  | .error _ => d

/-- One iteration of the `ShadesAccessory.poll` loop body
(`platformAccessory.ts` lines 196-260) as a function of the accessory state
and the results of the four device operations awaited in it:
`initialize()` (caught to `false`), `getBatteryLevel()` (caught to `0`),
`getCurrentPosition()` (caught to `100`), `getTargetPosition()` (caught to
`100`).  If initialization fails the iteration changes nothing (the loop
sleeps and continues).  Otherwise it stores the battery level and the
low-battery flag, stores `100 - devCurrent` as `currentPosition`, adopts
`100 - devTarget` as `targetPosition` only when `firstPoll` is set
(clearing `firstPoll`), and, when `positionState` is not `STOPPED` and
`doneMoving` holds at threshold 2, sets `lastMovementDone` and stops. -/
def pollStep (s : State) (rInit : Except String Bool)
    (rBattery rCurrent rTarget : Except String Int) : State :=
  let initialized := recover rInit false
  if initialized = false then
    s
  else
    let s1 := { s with batteryLevel := recover rBattery 0 }
    let s2 := { s1 with
      low_battery :=
        if s1.batteryLevel ≤ LOW_BATTERY_LEVEL then LOW_BATTERY.LOW else LOW_BATTERY.NORMAL }
    let s3 := { s2 with currentPosition := 100 - recover rCurrent 100 }
    let targetPosition := 100 - recover rTarget 100
    let s4 :=
      if s3.firstPoll then
        { s3 with targetPosition := targetPosition, firstPoll := false }
      else
        s3
    if s4.positionState ≠ .STOPPED then
      if doneMoving s4.currentPosition s4.targetPosition 2 then
        { s4 with lastMovementDone := true, positionState := .STOPPED }
      else
        s4
    else
      s4

end ShadesAccessory

namespace SOMADevice

/-- `BATTERY_SERVICE_UUID` from `somaDevice.ts`. -/
def BATTERY_SERVICE_UUID : String := "180f"

/-- `MOTOR_SERVICE_UUID` from `somaDevice.ts`. -/
def MOTOR_SERVICE_UUID : String := "00001861b87f490c92cb11ba5ea5167c"

/-- `BATTERY_LEVEL_CHARACTERISTIC_UUID` from `somaDevice.ts`. -/
def BATTERY_LEVEL_CHARACTERISTIC_UUID : String := "2a19"

/-- `MOTOR_STATE_CHARACTERISTIC_UUID` from `somaDevice.ts`. -/
def MOTOR_STATE_CHARACTERISTIC_UUID : String := "00001525b87f490c92cb11ba5ea5167c"

/-- `MOTOR_TARGET_CHARACTERISTIC_UUID` from `somaDevice.ts`. -/
def MOTOR_TARGET_CHARACTERISTIC_UUID : String := "00001526b87f490c92cb11ba5ea5167c"

/-- `MOTOR_CONTROL_CHARACTERISTIC_UUID` from `somaDevice.ts`. -/
def MOTOR_CONTROL_CHARACTERISTIC_UUID : String := "00001530b87f490c92cb11ba5ea5167c"

/-- The mutable fields of the `SOMADevice` class: the `connected` and
`initialized` flags and the `characteristics` cache
(`battery`, `motor.state`, `motor.target`, `motor.control`).  A cached
characteristic handle is represented by its UUID string; `none` is the
`null` the source stores before discovery and after a disconnect. -/
structure Session where
  connected : Bool
  initialized : Bool
  battery : Option String
  motorState : Option String
  motorTarget : Option String
  motorControl : Option String
deriving DecidableEq

/-- The constructor of `SOMADevice`: not connected, not initialized, and an
all-`null` characteristic cache. -/
def initialSession : Session :=
  { connected := false
    initialized := false
    battery := none
    motorState := none
    motorTarget := none
    motorControl := none }

/-- The `peripheral.once('disconnect', ...)` handler registered in
`SOMADevice.connect`: on a disconnect it sets `connected = false`,
`initialized = false`, and replaces the characteristic cache by the
all-`null` record. -/
def disconnectHandler (_ : Session) : Session :=
  { connected := false
    initialized := false
    battery := none
    motorState := none
    motorTarget := none
    motorControl := none }

/-- The `switch (characteristic.uuid)` body of the motor-characteristic
assignment loop in `SOMADevice.getCharacteristics`: a characteristic is
stored in the cache slot matching its UUID, and any other UUID is ignored
(the `default: break` arm). -/
def assignMotorCharacteristic (s : Session) (uuid : String) : Session :=
  if uuid = MOTOR_STATE_CHARACTERISTIC_UUID then
    { s with motorState := some uuid }
  else if uuid = MOTOR_TARGET_CHARACTERISTIC_UUID then
    { s with motorTarget := some uuid }
  else if uuid = MOTOR_CONTROL_CHARACTERISTIC_UUID then
    { s with motorControl := some uuid }
  else
    s

/-- `SOMADevice.getCharacteristics` (`somaDevice.ts`), run on a connected
session, as a function of the discovered service UUID list and the two
discovered characteristic UUID lists.  Returns the updated session and the
rejection message, if any.  The source validates the services by exact
count (2) and exact UUIDs, the battery characteristic list by exact count
(1) and exact UUID, then stores the battery handle; the motor
characteristic list is validated by count (3) only, after which each
characteristic is assigned to its slot by UUID and `initialized` is set. -/
def getCharacteristics (s : Session)
    (services batteryCharacteristics motorCharacteristics : List String) :
    Session × Option String :=
  if s.initialized then
    (s, none)
  else if services.length = 2 ∧ services.get? 0 = some BATTERY_SERVICE_UUID
      ∧ services.get? 1 = some MOTOR_SERVICE_UUID then
    if batteryCharacteristics.length = 1
        ∧ batteryCharacteristics.get? 0 = some BATTERY_LEVEL_CHARACTERISTIC_UUID then
      let s1 := { s with battery := batteryCharacteristics.get? 0 }
      if motorCharacteristics.length = 3 then
        ({ motorCharacteristics.foldl assignMotorCharacteristic s1 with initialized := true },
          none)
      else
        (s1, some "invalid motor characteristics")
    else
      (s, some "invalid battery characteristics")
  else
    (s, some "invalid services")

/-- The branch `SOMADevice.initialize` takes first: connect when not
connected, discover characteristics when connected but not initialized,
and report ready otherwise. -/
inductive InitAction where
  | connectFirst
  | discoverFirst
  | ready
deriving DecidableEq

/-- The dispatch order of `SOMADevice.initialize` (`somaDevice.ts`): if not
connected it connects (and retries itself), else if not initialized it runs
`getCharacteristics` (and retries itself), else it resolves `true`. -/
def initializeDispatch (s : Session) : InitAction :=
  if s.connected = false then .connectFirst
  else if s.initialized = false then .discoverFirst
  else .ready

/-- The transitions a `SOMADevice` session undergoes: a successful
`connect` sets `connected`; a `getCharacteristics` run on a connected
session updates it to the returned session (whether the run succeeded or
was rejected); the `disconnect` event fires `disconnectHandler`. -/
inductive Step : Session → Session → Prop where
  | connectOk (s : Session) : Step s { s with connected := true }
  | discoverOk (s s' : Session)
      (services batteryCharacteristics motorCharacteristics : List String)
      (hconn : s.connected = true)
      (hrun : getCharacteristics s services batteryCharacteristics motorCharacteristics
        = (s', none)) :
      Step s s'
  | discoverFail (s s' : Session)
      (services batteryCharacteristics motorCharacteristics : List String) (msg : String)
      (hconn : s.connected = true)
      (hrun : getCharacteristics s services batteryCharacteristics motorCharacteristics
        = (s', some msg)) :
      Step s s'
  | disconnectEvent (s : Session) : Step s (disconnectHandler s)

/-- The session states reachable from the constructor state through
`Step` transitions. -/
inductive Reachable : Session → Prop where
  | init : Reachable initialSession
  | step {s s' : Session} : Reachable s → Step s s' → Reachable s'

/-- `Buffer.from([position])[0]`, the single byte actually placed on the
wire by `SOMADevice.setTargetPosition`'s
`writeAsync(Buffer.from([position]), false)`: the value reduced modulo
256. -/
def writeByte (position : Int) : Int := position % 256

end SOMADevice

namespace SOMAShadesPlatform

/-- One entry of the configured device list: `{ name, id }` from the
platform config. -/
structure DeviceConfig where
  name : String
  id : String

/-- The state of one scan cycle in `SOMAShadesPlatform.discoverDevices`:
the `discoveredDevices` dedup list, the `discoveredAll` flag, and the
addresses handed to `addAccessory` so far (in call order). -/
structure ScanState where
  discoveredDevices : List String
  discoveredAll : Bool
  handedOff : List String

/-- `String.prototypSOMAShadesPlatform.toLowerCase eCase` as the source applies it to BLE
addresses and configured device ids (ASCII hex-and-colon strings):
character-wise lower-casing. -/
def toLowerCase (s : String) : String := ⟨s.data.map Char.toLower⟩

/-- The `discoverPeripharels` callback of `platform.ts` handling one
`discover` event: do nothing once all devices were discovered; lower-case
the peripheral id; skip it when already in `discoveredDevices`; skip it
when no configured device id matches it case-insensitively; otherwise push
it, hand it to `addAccessory`, and set `discoveredAll` when the discovered
count reaches the configured device count. -/
def discoverPeripharels (devices : List DeviceConfig) (st : ScanState)
    (peripharelId : String) : ScanState :=
  if st.discoveredAll then
    st
  else if toLowerCase peripharelId ∈ st.discoveredDevices then
    st
  else
    match devices.find? (fun c => toLowerCase c.id == toLowerCase peripharelId) with
    | none => st
    | some _ =>
      { discoveredDevices := st.discoveredDevices ++ [toLowerCase peripharelId]
        handedOff := st.handedOff ++ [toLowerCase peripharelId]
        discoveredAll :=
          if (st.discoveredDevices ++ [toLowerCase peripharelId]).length = devices.length
          then true
          else st.discoveredAll }

/-- One scan cycle: fold `discoverPeripharels` over the sequence of
peripheral ids reported by the scanner, starting from the empty
`discoveredDevices` list. -/
def runScan (devices : List DeviceConfig) (events : List String) : ScanState :=
  events.foldl (discoverPeripharels devices) ⟨[], false, []⟩

/-- The lower-cased configured device ids, the compare keys
`config.id.toLowerCase()` used by the discovery callback. -/
def configuredIds (devices : List DeviceConfig) : List String :=
  devices.map (fun c => toLowerCase c.id)

/-- The facts the scan state maintains across `discover` events: addresses
are handed to `addAccessory` in lockstep with the dedup list, the dedup
list has no duplicates and only holds configured compare keys, and once
`discoveredAll` is set every configured compare key has been discovered. -/
structure ScanInv (devices : List DeviceConfig) (st : ScanState) : Prop where
  handed_eq : st.handedOff = st.discoveredDevices
  nodup : st.discoveredDevices.Nodup
  mem_config : ∀ x ∈ st.discoveredDevices, x ∈ configuredIds devices
  all_done : st.discoveredAll = true → ∀ c ∈ configuredIds devices, c ∈ st.discoveredDevices

end SOMAShadesPlatform

/-- C1: for all integers `c`, `t`, `k`, `doneMoving c t k = true` iff
`c ∈ [max 0 (t-k), min 100 (t+k)]`; in particular for `t=0, k=2` the band is
`[0,2]` and for `t=100, k=2` it is `[98,100]`. -/
theorem doneMoving_iff_mem_clamped_band (c t k : Int) :
    (ShadesAccessory.doneMoving c t k = true ↔ max 0 (t - k) ≤ c ∧ c ≤ min 100 (t + k))
    ∧ (ShadesAccessory.doneMoving c 0 2 = true ↔ 0 ≤ c ∧ c ≤ 2)
    ∧ (ShadesAccessory.doneMoving c 100 2 = true ↔ 98 ≤ c ∧ c ≤ 100) := by
  refine ⟨?_, ?_, ?_⟩ <;>
    simp only [ShadesAccessory.doneMoving, Bool.and_eq_true, decide_eq_true_eq] <;>
    split <;> split <;> omega

/-- Helper: on the accepted path of `setTargetPosition` (request differs
from `currentPosition`, no movement in flight, device target read
succeeded), the device operations issued are the target read followed by
the inverted write exactly when the read-back value differs from
`100 - value`. -/
theorem setTargetPosition_accepted_actions (s : ShadesAccessory.State) (v t : Int)
    (h1 : v ≠ s.currentPosition) (h2 : s.lastMovementDone = true) :
    (ShadesAccessory.setTargetPosition s v (.ok t)).2.1
      = if t = 100 - v then [ShadesAccessory.DevAction.readTarget]
        else [ShadesAccessory.DevAction.readTarget,
              ShadesAccessory.DevAction.writeTarget (100 - v)] := by
  unfold ShadesAccessory.setTargetPosition
  rw [if_neg h1, if_neg (by simp [h2])]
  by_cases h : t = 100 - v <;> simp [h]

/-- C2: the code never assigns `lastMovementDone = false`: an accepted
`setTargetPosition` call (evidenced by the device write it issues) leaves
`lastMovementDone` equal to `true`, so a `setTargetPosition` call issued
immediately afterwards is accepted as well instead of being gated while
the movement is still in flight. -/
theorem setTargetPosition_accepted_leaves_lastMovementDone_true :
    ((ShadesAccessory.setTargetPosition ShadesAccessory.initialState 50 (.ok 100)).2.1
      = [ShadesAccessory.DevAction.readTarget, ShadesAccessory.DevAction.writeTarget 50])
    ∧ (ShadesAccessory.setTargetPosition ShadesAccessory.initialState 50
        (.ok 100)).1.lastMovementDone = true
    ∧ ((ShadesAccessory.setTargetPosition
          (ShadesAccessory.setTargetPosition ShadesAccessory.initialState 50 (.ok 100)).1
          80 (.ok 50)).2.1
        = [ShadesAccessory.DevAction.readTarget, ShadesAccessory.DevAction.writeTarget 20]) := by
  decide

/-- C3: a `setTargetPosition` call made while `lastMovementDone` is false
is a no-op success: the callback reports success, the accessory state is
returned unchanged, and no device operation is issued. -/
theorem setTargetPosition_inflight_noop (s : ShadesAccessory.State) (v : Int)
    (r : Except String Int) (h : s.lastMovementDone = false) :
    ShadesAccessory.setTargetPosition s v r = (s, [], .success) := by
  unfold ShadesAccessory.setTargetPosition
  by_cases h1 : v = s.currentPosition <;> simp [h1, h]

/-- Witness for C3 at a concrete in-flight state. -/
theorem setTargetPosition_inflight_noop_witness :
    ShadesAccessory.setTargetPosition
      { ShadesAccessory.initialState with lastMovementDone := false } 50 (.ok 0)
      = ({ ShadesAccessory.initialState with lastMovementDone := false }, [], .success) :=
  setTargetPosition_inflight_noop _ 50 (.ok 0) rfl

/-- C4: on an accepted `setTargetPosition` call, no write is issued when
the target read back from the device already equals `100 - v`, and the
write (carrying `100 - v`) is issued exactly when the two differ. -/
theorem setTargetPosition_write_iff_device_target_differs
    (s : ShadesAccessory.State) (v t : Int)
    (h1 : v ≠ s.currentPosition) (h2 : s.lastMovementDone = true) :
    ((ShadesAccessory.setTargetPosition s v (.ok t)).2.1
      = if t = 100 - v then [ShadesAccessory.DevAction.readTarget]
        else [ShadesAccessory.DevAction.readTarget,
              ShadesAccessory.DevAction.writeTarget (100 - v)])
    ∧ (∀ b : Int,
        ShadesAccessory.DevAction.writeTarget b
            ∈ (ShadesAccessory.setTargetPosition s v (.ok t)).2.1
          ↔ t ≠ 100 - v ∧ b = 100 - v) := by
  refine ⟨setTargetPosition_accepted_actions s v t h1 h2, fun b => ?_⟩
  rw [setTargetPosition_accepted_actions s v t h1 h2]
  by_cases h : t = 100 - v <;> simp [h, eq_comm]

/-- Witness for C4: a request of 40 whose device target reads back as 60
(= 100 - 40) issues no write. -/
theorem setTargetPosition_write_iff_device_target_differs_witness :
    (ShadesAccessory.setTargetPosition ShadesAccessory.initialState 40 (.ok 60)).2.1
      = [ShadesAccessory.DevAction.readTarget] := by
  have h := setTargetPosition_write_iff_device_target_differs
    ShadesAccessory.initialState 40 60 (by decide) rfl
  simpa using h.1

/-- C7: the poll-loop body leaves `targetPosition` untouched whenever
`firstPoll` is already cleared; on the first successful poll (initialize
succeeded while `firstPoll` is set) it adopts the inverted device target
and clears `firstPoll`. -/
theorem poll_adopts_device_target_only_on_first_poll (s : ShadesAccessory.State)
    (i : Except String Bool) (b c t : Except String Int) :
    (s.firstPoll = false →
      (ShadesAccessory.pollStep s i b c t).targetPosition = s.targetPosition)
    ∧ (s.firstPoll = true → ShadesAccessory.recover i false = true →
      (ShadesAccessory.pollStep s i b c t).targetPosition
          = 100 - ShadesAccessory.recover t 100
        ∧ (ShadesAccessory.pollStep s i b c t).firstPoll = false) := by
  unfold ShadesAccessory.pollStep
  cases hrec : ShadesAccessory.recover i false with
  | false =>
    exact ⟨fun hfp => by simp, fun hfp hrec2 => absurd hrec2 (by decide)⟩
  | true =>
    refine ⟨fun hfp => ?_, fun hfp hrec2 => ⟨?_, ?_⟩⟩ <;>
      · simp only [if_neg (by decide : ¬(true = false)), hfp, Bool.false_eq_true, if_false,
          if_true]
        split_ifs <;> rfl

/-- Witness for C7: a non-first poll leaves the stored target unchanged. -/
theorem poll_adopts_device_target_only_on_first_poll_witness :
    (ShadesAccessory.pollStep { ShadesAccessory.initialState with firstPoll := false }
        (.ok true) (.ok 80) (.ok 30) (.ok 60)).targetPosition
      = ({ ShadesAccessory.initialState with firstPoll := false }
          : ShadesAccessory.State).targetPosition :=
  (poll_adopts_device_target_only_on_first_poll _ (.ok true) (.ok 80) (.ok 30) (.ok 60)).1 rfl

/-- C8: every device-operation error inside the poll-loop body is caught
and replaced by the default of its catch handler — `initialize` errors by
`false` (so the iteration just continues), `getBatteryLevel` errors by `0`,
`getCurrentPosition` and `getTargetPosition` errors by `100` — so the body
always produces a next state and no error escapes it. -/
theorem pollStep_error_recovery_equals_defaults (s : ShadesAccessory.State)
    (msg : String) (i : Except String Bool) (b c t : Except String Int) :
    ShadesAccessory.pollStep s (.error msg) b c t
        = ShadesAccessory.pollStep s (.ok false) b c t
    ∧ ShadesAccessory.pollStep s i (.error msg) c t
        = ShadesAccessory.pollStep s i (.ok 0) c t
    ∧ ShadesAccessory.pollStep s i b (.error msg) t
        = ShadesAccessory.pollStep s i b (.ok 100) t
    ∧ ShadesAccessory.pollStep s i b c (.error msg)
        = ShadesAccessory.pollStep s i b c (.ok 100) :=
  ⟨rfl, rfl, rfl, rfl⟩

/-- C10: `setTargetPosition` applies no range validation: every integer
`v` that passes the equality and in-flight guards reaches the device
write, whose raw value is `100 - v`, and the single byte put on the wire
by `SOMADevice.setTargetPosition` is `(100 - v) % 256`, a value in
`[0, 256)`. -/
theorem setTargetPosition_no_range_validation_byte_mod_256
    (s : ShadesAccessory.State) (v t : Int)
    (h1 : v ≠ s.currentPosition) (h2 : s.lastMovementDone = true) (h3 : t ≠ 100 - v) :
    (ShadesAccessory.setTargetPosition s v (.ok t)).2.1
        = [ShadesAccessory.DevAction.readTarget,
           ShadesAccessory.DevAction.writeTarget (100 - v)]
    ∧ SOMADevice.writeByte (100 - v) = (100 - v) % 256
    ∧ 0 ≤ SOMADevice.writeByte (100 - v)
    ∧ SOMADevice.writeByte (100 - v) < 256 := by
  refine ⟨?_, rfl, ?_, ?_⟩
  · rw [setTargetPosition_accepted_actions s v t h1 h2, if_neg h3]
  · exact Int.emod_nonneg _ (by norm_num)
  · exact Int.emod_lt_of_pos _ (by norm_num)

/-- Helper: assigning one motor characteristic never touches the
`connected` flag. -/
theorem assignMotorCharacteristic_connected (s : SOMADevice.Session) (uuid : String) :
    (SOMADevice.assignMotorCharacteristic s uuid).connected = s.connected := by
  unfold SOMADevice.assignMotorCharacteristic
  split_ifs <;> rfl

/-- Helper: the motor-characteristic assignment loop never touches the
`connected` flag. -/
theorem foldl_assignMotorCharacteristic_connected (l : List String) (s : SOMADevice.Session) :
    (l.foldl SOMADevice.assignMotorCharacteristic s).connected = s.connected := by
  induction l generalizing s with
  | nil => rfl
  | cons x xs ih => rw [List.foldl_cons, ih, assignMotorCharacteristic_connected]

/-- Helper: `getCharacteristics` never touches the `connected` flag. -/
theorem getCharacteristics_connected (s : SOMADevice.Session)
    (services batteryCharacteristics motorCharacteristics : List String) :
    (SOMADevice.getCharacteristics s services batteryCharacteristics
      motorCharacteristics).1.connected = s.connected := by
  unfold SOMADevice.getCharacteristics
  split_ifs <;> simp [foldl_assignMotorCharacteristic_connected]

/-- Helper: every session transition preserves the implication
`initialized = true → connected = true`. -/
theorem step_preserves_initialized_implies_connected {s s' : SOMADevice.Session}
    (hstep : SOMADevice.Step s s')
    (_ih : s.initialized = true → s.connected = true) :
    s'.initialized = true → s'.connected = true := by
  cases hstep with
  | connectOk => intro _; rfl
  | discoverOk _ services bcs mcs hconn hrun =>
    intro _
    have hc := getCharacteristics_connected s services bcs mcs
    rw [hrun] at hc
    rw [hc, hconn]
  | discoverFail _ services bcs mcs msg hconn hrun =>
    intro _
    have hc := getCharacteristics_connected s services bcs mcs
    rw [hrun] at hc
    rw [hc, hconn]
  | disconnectEvent =>
    intro h2
    exact absurd h2 (by simp [SOMADevice.disconnectHandler])

/-- C5: in every reachable session state `initialized` implies `connected`;
the disconnect event resets `connected` and `initialized` to false and
empties all four characteristic cache slots; and the next `initialize`
call on the post-disconnect state dispatches to a fresh connect, followed
(once connected) by a fresh discovery, rather than reporting ready with
stale handles. -/
theorem session_initialized_implies_connected_and_disconnect_resets :
    (∀ s : SOMADevice.Session, SOMADevice.Reachable s →
      s.initialized = true → s.connected = true)
    ∧ (∀ s : SOMADevice.Session,
        (SOMADevice.disconnectHandler s).connected = false
        ∧ (SOMADevice.disconnectHandler s).initialized = false
        ∧ (SOMADevice.disconnectHandler s).battery = none
        ∧ (SOMADevice.disconnectHandler s).motorState = none
        ∧ (SOMADevice.disconnectHandler s).motorTarget = none
        ∧ (SOMADevice.disconnectHandler s).motorControl = none)
    ∧ (∀ s : SOMADevice.Session,
        SOMADevice.initializeDispatch (SOMADevice.disconnectHandler s)
          = SOMADevice.InitAction.connectFirst)
    ∧ (∀ s : SOMADevice.Session,
        SOMADevice.initializeDispatch
            { SOMADevice.disconnectHandler s with connected := true }
          = SOMADevice.InitAction.discoverFirst) := by
  refine ⟨?_, fun s => ⟨rfl, rfl, rfl, rfl, rfl, rfl⟩, fun s => rfl, fun s => rfl⟩
  intro s h
  induction h with
  | init => intro h2; exact absurd h2 (by simp [SOMADevice.initialSession])
  | step hr hstep ih => exact step_preserves_initialized_implies_connected hstep ih

/-- Witness for C5: a session that connected and then completed discovery
is reachable, has `initialized = true`, and the theorem yields
`connected = true` for it. -/
theorem session_initialized_implies_connected_witness :
    ({ connected := true, initialized := true,
       battery := some SOMADevice.BATTERY_LEVEL_CHARACTERISTIC_UUID,
       motorState := some SOMADevice.MOTOR_STATE_CHARACTERISTIC_UUID,
       motorTarget := some SOMADevice.MOTOR_TARGET_CHARACTERISTIC_UUID,
       motorControl := some SOMADevice.MOTOR_CONTROL_CHARACTERISTIC_UUID }
      : SOMADevice.Session).connected = true :=
  session_initialized_implies_connected_and_disconnect_resets.1 _
    (SOMADevice.Reachable.step
      (SOMADevice.Reachable.step SOMADevice.Reachable.init
        (SOMADevice.Step.connectOk SOMADevice.initialSession))
      (SOMADevice.Step.discoverOk _ _
        [SOMADevice.BATTERY_SERVICE_UUID, SOMADevice.MOTOR_SERVICE_UUID]
        [SOMADevice.BATTERY_LEVEL_CHARACTERISTIC_UUID]
        [SOMADevice.MOTOR_STATE_CHARACTERISTIC_UUID,
         SOMADevice.MOTOR_TARGET_CHARACTERISTIC_UUID,
         SOMADevice.MOTOR_CONTROL_CHARACTERISTIC_UUID]
        rfl rfl))
    rfl

/-- Helper: a list of strings has length 2 with given first and second
entries iff it is the two-element list of those entries. -/
theorem list_length_two_get_iff (l : List String) (a b : String) :
    (l.length = 2 ∧ l.get? 0 = some a ∧ l.get? 1 = some b) ↔ l = [a, b] := by
  match l with
  | [] => simp
  | [x] => simp
  | [x, y] => simp [List.get?]
  | x :: y :: z :: rest => simp [List.get?]

/-- Helper: a list of strings has length 1 with a given first entry iff it
is the singleton of that entry. -/
theorem list_length_one_get_iff (l : List String) (a : String) :
    (l.length = 1 ∧ l.get? 0 = some a) ↔ l = [a] := by
  match l with
  | [] => simp
  | [x] => simp [List.get?]
  | x :: y :: rest => simp [List.get?]

/-- Counterexample to C6: three motor characteristics whose UUIDs are all
wrong but whose count is 3 pass validation — `getCharacteristics` returns
no error and sets `initialized` to true (leaving the motor cache slots
null), contradicting the claim that a wrong UUID for the motor
characteristics fails the discovery attempt. -/
theorem getCharacteristics_motor_uuid_mismatch_succeeds :
    (SOMADevice.getCharacteristics
        { SOMADevice.initialSession with connected := true }
        [SOMADevice.BATTERY_SERVICE_UUID, SOMADevice.MOTOR_SERVICE_UUID]
        [SOMADevice.BATTERY_LEVEL_CHARACTERISTIC_UUID]
        ["aa", "bb", "cc"]).2 = none
    ∧ (SOMADevice.getCharacteristics
        { SOMADevice.initialSession with connected := true }
        [SOMADevice.BATTERY_SERVICE_UUID, SOMADevice.MOTOR_SERVICE_UUID]
        [SOMADevice.BATTERY_LEVEL_CHARACTERISTIC_UUID]
        ["aa", "bb", "cc"]).1.initialized = true
    ∧ (SOMADevice.getCharacteristics
        { SOMADevice.initialSession with connected := true }
        [SOMADevice.BATTERY_SERVICE_UUID, SOMADevice.MOTOR_SERVICE_UUID]
        [SOMADevice.BATTERY_LEVEL_CHARACTERISTIC_UUID]
        ["aa", "bb", "cc"]).1.motorState = none := ⟨rfl, rfl, rfl⟩

/-- C6 (amended): on a not-yet-initialized session, discovery succeeds iff
the services are exactly `[battery, motor]` (count and UUID), the battery
characteristics exactly `[battery-level]` (count and UUID), and the motor
characteristic count is exactly 3 — motor characteristic UUIDs are not
validated; every such mismatch yields an error with `initialized` left
false, and success sets `initialized`. -/
theorem getCharacteristics_validation_amended (s : SOMADevice.Session)
    (services bc mc : List String) (h : s.initialized = false) :
    ((SOMADevice.getCharacteristics s services bc mc).2 = none
      ↔ services = [SOMADevice.BATTERY_SERVICE_UUID, SOMADevice.MOTOR_SERVICE_UUID]
        ∧ bc = [SOMADevice.BATTERY_LEVEL_CHARACTERISTIC_UUID]
        ∧ mc.length = 3)
    ∧ ((SOMADevice.getCharacteristics s services bc mc).2 ≠ none
        → (SOMADevice.getCharacteristics s services bc mc).1.initialized = false)
    ∧ ((SOMADevice.getCharacteristics s services bc mc).2 = none
        → (SOMADevice.getCharacteristics s services bc mc).1.initialized = true) := by
  have hpair := list_length_two_get_iff services
    SOMADevice.BATTERY_SERVICE_UUID SOMADevice.MOTOR_SERVICE_UUID
  have hsing := list_length_one_get_iff bc SOMADevice.BATTERY_LEVEL_CHARACTERISTIC_UUID
  unfold SOMADevice.getCharacteristics
  rw [if_neg (by simp [h])]
  split_ifs with h1 h2 h3
  · refine ⟨?_, fun hne => absurd rfl hne, fun _ => rfl⟩
    simp [hpair.mp h1, hsing.mp h2, h3]
  · refine ⟨⟨fun habs => absurd habs (by simp), ?_⟩, fun _ => h, fun habs => absurd habs (by simp)⟩
    rintro ⟨-, -, h3'⟩
    exact absurd h3' h3
  · refine ⟨⟨fun habs => absurd habs (by simp), ?_⟩, fun _ => h, fun habs => absurd habs (by simp)⟩
    rintro ⟨-, h2', -⟩
    exact h2 (hsing.mpr h2')
  · refine ⟨⟨fun habs => absurd habs (by simp), ?_⟩, fun _ => h, fun habs => absurd habs (by simp)⟩
    rintro ⟨h1', -, -⟩
    exact h1 (hpair.mpr h1')

/-- Witness for C6 (amended): an empty discovered-service list is rejected
and leaves `initialized` false. -/
theorem getCharacteristics_validation_amended_witness :
    (SOMADevice.getCharacteristics SOMADevice.initialSession [] [] []).1.initialized
      = false :=
  (getCharacteristics_validation_amended SOMADevice.initialSession [] [] [] rfl).2.1
    (by decide)

/-- Helper: the empty scan state satisfies the scan-cycle invariant. -/
theorem scanInv_initial (devices : List SOMAShadesPlatform.DeviceConfig) :
    SOMAShadesPlatform.ScanInv devices ⟨[], false, []⟩ := by
  refine ⟨rfl, List.nodup_nil, ?_, ?_⟩
  · intro x hx; simp at hx
  · intro hdone; simp at hdone

/-- Helper: processing one `discover` event never removes an address from
the dedup list. -/
theorem discoverPeripharels_subset (devices : List SOMAShadesPlatform.DeviceConfig)
    (st : SOMAShadesPlatform.ScanState) (e : String) :
    st.discoveredDevices
      ⊆ (SOMAShadesPlatform.discoverPeripharels devices st e).discoveredDevices := by
  unfold SOMAShadesPlatform.discoverPeripharels
  split
  · exact fun x hx => hx
  · split
    · exact fun x hx => hx
    · split
      · exact fun x hx => hx
      · exact fun x hx => List.mem_append.mpr (Or.inl hx)

/-- Helper: a whole scan cycle never removes an address from the dedup
list. -/
theorem foldl_discoverPeripharels_subset (devices : List SOMAShadesPlatform.DeviceConfig)
    (events : List String) (st : SOMAShadesPlatform.ScanState) :
    st.discoveredDevices
      ⊆ ((events.foldl (SOMAShadesPlatform.discoverPeripharels devices) st)).discoveredDevices := by
  induction events generalizing st with
  | nil => exact fun x hx => hx
  | cons e es ih =>
    rw [List.foldl_cons]
    exact fun x hx => ih _ (discoverPeripharels_subset devices st e hx)

/-- Helper: processing one `discover` event preserves the scan-cycle
invariant. -/
theorem scanInv_step (devices : List SOMAShadesPlatform.DeviceConfig)
    (st : SOMAShadesPlatform.ScanState) (e : String)
    (h : SOMAShadesPlatform.ScanInv devices st) :
    SOMAShadesPlatform.ScanInv devices (SOMAShadesPlatform.discoverPeripharels devices st e) := by
  unfold SOMAShadesPlatform.discoverPeripharels
  cases hall : st.discoveredAll with
  | true => simpa using h
  | false =>
    simp only [Bool.false_eq_true, if_false]
    by_cases hmem : SOMAShadesPlatform.toLowerCase e ∈ st.discoveredDevices
    · simpa [hmem] using h
    · simp only [hmem, if_false]
      cases hfind : devices.find? (fun c => SOMAShadesPlatform.toLowerCase c.id == SOMAShadesPlatform.toLowerCase e) with
      | none => exact h
      | some cfg =>
        refine ⟨?_, ?_, ?_, ?_⟩
        · simp [h.handed_eq]
        · simp [List.nodup_append, h.nodup, hmem]
        · intro x hx
          rcases List.mem_append.mp hx with hx | hx
          · exact h.mem_config x hx
          · have hx' : x = SOMAShadesPlatform.toLowerCase e := by simpa using hx
            subst hx'
            have hcfgmem := List.mem_of_find?_eq_some hfind
            have hcfgeq : SOMAShadesPlatform.toLowerCase cfg.id = SOMAShadesPlatform.toLowerCase e := by
              simpa using List.find?_some hfind
            exact List.mem_map.mpr ⟨cfg, hcfgmem, hcfgeq⟩
        · intro hdone c hc
          have hlen : (st.discoveredDevices ++ [SOMAShadesPlatform.toLowerCase e]).length = devices.length := by
            by_cases hl : (st.discoveredDevices ++ [SOMAShadesPlatform.toLowerCase e]).length = devices.length
            · exact hl
            · dsimp only at hdone
              rw [if_neg hl] at hdone
              exact absurd hdone (by decide)
          have hnodup : (st.discoveredDevices ++ [SOMAShadesPlatform.toLowerCase e]).Nodup := by
            simp [List.nodup_append, h.nodup, hmem]
          have hsub : (st.discoveredDevices ++ [SOMAShadesPlatform.toLowerCase e]).toFinset
              ⊆ (SOMAShadesPlatform.configuredIds devices).toFinset := by
            intro x hx
            rw [List.mem_toFinset] at hx
            rw [List.mem_toFinset]
            rcases List.mem_append.mp hx with hx | hx
            · exact h.mem_config x hx
            · have hx' : x = SOMAShadesPlatform.toLowerCase e := by simpa using hx
              subst hx'
              have hcfgmem := List.mem_of_find?_eq_some hfind
              have hcfgeq : SOMAShadesPlatform.toLowerCase cfg.id = SOMAShadesPlatform.toLowerCase e := by
                simpa using List.find?_some hfind
              exact List.mem_map.mpr ⟨cfg, hcfgmem, hcfgeq⟩
          have hcardle : (SOMAShadesPlatform.configuredIds devices).toFinset.card
              ≤ (st.discoveredDevices ++ [SOMAShadesPlatform.toLowerCase e]).toFinset.card := by
            calc (SOMAShadesPlatform.configuredIds devices).toFinset.card
                ≤ (SOMAShadesPlatform.configuredIds devices).length :=
                  List.toFinset_card_le _
              _ = devices.length := List.length_map _ _
              _ = (st.discoveredDevices ++ [SOMAShadesPlatform.toLowerCase e]).length := hlen.symm
              _ = (st.discoveredDevices ++ [SOMAShadesPlatform.toLowerCase e]).toFinset.card :=
                  (List.toFinset_card_of_nodup hnodup).symm
          have hfe := Finset.eq_of_subset_of_card_le hsub hcardle
          have hcfin := List.mem_toFinset.mpr hc
          rw [← hfe] at hcfin
          exact List.mem_toFinset.mp hcfin

/-- Helper: a scan cycle preserves the scan-cycle invariant from any
starting state. -/
theorem foldl_discoverPeripharels_scanInv (devices : List SOMAShadesPlatform.DeviceConfig)
    (events : List String) (st : SOMAShadesPlatform.ScanState)
    (h : SOMAShadesPlatform.ScanInv devices st) :
    SOMAShadesPlatform.ScanInv devices
      (events.foldl (SOMAShadesPlatform.discoverPeripharels devices) st) := by
  induction events generalizing st with
  | nil => exact h
  | cons e es ih => exact ih _ (scanInv_step devices st e h)

/-- Helper: after its `discover` event is processed, a configured address
is in the dedup list. -/
theorem discoverPeripharels_mem (devices : List SOMAShadesPlatform.DeviceConfig)
    (st : SOMAShadesPlatform.ScanState) (e : String)
    (h : SOMAShadesPlatform.ScanInv devices st)
    (hc : SOMAShadesPlatform.toLowerCase e ∈ SOMAShadesPlatform.configuredIds devices) :
    SOMAShadesPlatform.toLowerCase e ∈ (SOMAShadesPlatform.discoverPeripharels devices st e).discoveredDevices := by
  unfold SOMAShadesPlatform.discoverPeripharels
  cases hall : st.discoveredAll with
  | true => simpa using h.all_done hall _ hc
  | false =>
    simp only [Bool.false_eq_true, if_false]
    by_cases hmem : SOMAShadesPlatform.toLowerCase e ∈ st.discoveredDevices
    · rw [if_pos hmem]
      exact hmem
    · simp only [hmem, if_false]
      cases hfind : devices.find? (fun c => SOMAShadesPlatform.toLowerCase c.id == SOMAShadesPlatform.toLowerCase e) with
      | none =>
        exfalso
        rw [List.find?_eq_none] at hfind
        obtain ⟨cfg, hcfgmem, hcfgeq⟩ := List.mem_map.mp hc
        exact absurd (by simpa using hcfgeq) (by simpa using hfind cfg hcfgmem)
      | some cfg => simp

/-- Helper: a configured address reported at least once during a scan
cycle ends up in the dedup list. -/
theorem foldl_discoverPeripharels_mem (devices : List SOMAShadesPlatform.DeviceConfig)
    (events : List String) :
    ∀ st : SOMAShadesPlatform.ScanState, SOMAShadesPlatform.ScanInv devices st →
      ∀ a : String, a ∈ events.map SOMAShadesPlatform.toLowerCase →
        a ∈ SOMAShadesPlatform.configuredIds devices →
        a ∈ ((events.foldl
          (SOMAShadesPlatform.discoverPeripharels devices) st)).discoveredDevices := by
  induction events with
  | nil => intro st h a ha hc; simp at ha
  | cons e es ih =>
    intro st h a ha hc
    rw [List.foldl_cons]
    rcases (show a = SOMAShadesPlatform.toLowerCase e ∨ a ∈ es.map SOMAShadesPlatform.toLowerCase by simpa using ha) with heq | hmem
    · subst heq
      exact foldl_discoverPeripharels_subset devices es _
        (discoverPeripharels_mem devices st e h hc)
    · exact ih _ (scanInv_step devices st e h) a hmem hc

/-- C9: during one scan cycle, every address (compared after
lower-casing) is handed to `addAccessory` at most once; an address not in
the configured device list is never handed off; and a configured address
reported at least once by the scanner is handed off exactly once, however
many times it is reported. -/
theorem discover_hands_off_each_address_exactly_once
    (devices : List SOMAShadesPlatform.DeviceConfig) (events : List String) (a : String) :
    ((SOMAShadesPlatform.runScan devices events).handedOff.count (SOMAShadesPlatform.toLowerCase a) ≤ 1)
    ∧ (SOMAShadesPlatform.toLowerCase a ∉ SOMAShadesPlatform.configuredIds devices →
        (SOMAShadesPlatform.runScan devices events).handedOff.count (SOMAShadesPlatform.toLowerCase a) = 0)
    ∧ (SOMAShadesPlatform.toLowerCase a ∈ events.map SOMAShadesPlatform.toLowerCase →
        SOMAShadesPlatform.toLowerCase a ∈ SOMAShadesPlatform.configuredIds devices →
        (SOMAShadesPlatform.runScan devices events).handedOff.count (SOMAShadesPlatform.toLowerCase a) = 1) := by
  have hinv : SOMAShadesPlatform.ScanInv devices (SOMAShadesPlatform.runScan devices events) :=
    foldl_discoverPeripharels_scanInv devices events _ (scanInv_initial devices)
  rw [hinv.handed_eq]
  refine ⟨?_, ?_, ?_⟩
  · by_cases hm : SOMAShadesPlatform.toLowerCase a ∈ (SOMAShadesPlatform.runScan devices events).discoveredDevices
    · exact le_of_eq (List.count_eq_one_of_mem hinv.nodup hm)
    · simp [List.count_eq_zero_of_not_mem hm]
  · intro hnc
    exact List.count_eq_zero_of_not_mem (fun hm => hnc (hinv.mem_config _ hm))
  · intro he hc
    exact List.count_eq_one_of_mem hinv.nodup
      (foldl_discoverPeripharels_mem devices events _ (scanInv_initial devices) _ he hc)

/-- Witness for C9: the configured address `AA:BB:CC:DD:EE:FF`, reported
twice in different cases plus an unconfigured address, is handed off
exactly once. -/
theorem discover_hands_off_each_address_exactly_once_witness :
    (SOMAShadesPlatform.runScan
        [⟨"Balcony", "AA:BB:CC:DD:EE:FF"⟩, ⟨"Porch", "11:22:33:44:55:66"⟩]
        ["aa:bb:cc:dd:ee:ff", "AA:BB:CC:DD:EE:FF", "99:99:99:99:99:99"]).handedOff.count
      (SOMAShadesPlatform.toLowerCase "AA:BB:CC:DD:EE:FF") = 1 :=
  (discover_hands_off_each_address_exactly_once
      [⟨"Balcony", "AA:BB:CC:DD:EE:FF"⟩, ⟨"Porch", "11:22:33:44:55:66"⟩]
      ["aa:bb:cc:dd:ee:ff", "AA:BB:CC:DD:EE:FF", "99:99:99:99:99:99"]
      "AA:BB:CC:DD:EE:FF").2.2 (by decide) (by decide)

/-- Witness for C10: the out-of-range request 150 is accepted and its
device-convention value `100 - 150 = -50` is truncated to the byte 206. -/
theorem setTargetPosition_no_range_validation_byte_mod_256_witness :
    ((ShadesAccessory.setTargetPosition ShadesAccessory.initialState 150 (.ok 0)).2.1
      = [ShadesAccessory.DevAction.readTarget,
         ShadesAccessory.DevAction.writeTarget (100 - 150)])
    ∧ SOMADevice.writeByte (100 - 150) = 206 :=
  ⟨(setTargetPosition_no_range_validation_byte_mod_256 ShadesAccessory.initialState 150 0
      (by decide) rfl (by decide)).1,
    by decide⟩
